import Mathlib

/-!
Shallow embedding of the device-command orchestration and caching layer of the
debloat-ai repository: the asynchronous package streaming module
(`package_stream.rs`), the ADB executor and device registry (`adb.rs`), and the
system health collector (`system_health.rs`).

Modelling conventions: wall-clock instants are integer timestamps passed
explicitly (an `Instant` becomes the time it was taken; `elapsed()` becomes
`now - taken`); subprocess interaction is modelled by explicit world records
carrying the outputs the subprocesses would produce, and every model function
reports the number of subprocess spawns it attempts; event emission is modelled
by returning the list of emitted events in order.
-/

namespace DebloatAI

/-! ## package_stream.rs: constants and event payload types -/

/-- The `CHUNK_SIZE` constant of package_stream.rs (line 24). -/
def CHUNK_SIZE : Nat := 30

/-- The `CACHE_DURATION_SECS` constant of package_stream.rs (line 25). -/
def CACHE_DURATION_SECS : Nat := 300

/-- Payload `StreamedPackage` (package_stream.rs lines 31-35). -/
structure StreamedPackage where
  package_name : String
  app_name : String
  safety_level : String
  deriving DecidableEq, Repr

/-- Payload `PackageChunk` of a `package_chunk` event (lines 39-44). -/
structure PackageChunk where
  packages : List StreamedPackage
  chunk_index : Nat
  total_so_far : Nat
  is_final : Bool
  deriving DecidableEq, Repr

/-- Payload `StreamProgress` of a `package_stream_progress` event (lines 48-53). -/
structure StreamProgress where
  status : String
  packages_loaded : Nat
  is_complete : Bool
  error : Option String
  deriving DecidableEq, Repr

/-- Payload `StreamComplete` of a `package_stream_complete` event (lines 57-61). -/
structure StreamComplete where
  total_packages : Nat
  duration_ms : Nat
  from_cache : Bool
  deriving DecidableEq, Repr

/-- An event emitted on the Tauri event channel by the streaming module. -/
inductive StreamEvent where
  | progress (p : StreamProgress)
  | chunk (c : PackageChunk)
  | complete (c : StreamComplete)
  deriving DecidableEq, Repr

/-- Cache entry `CachedPackages` (lines 65-69); the `Instant` timestamp is an
integer instant. -/
structure CachedPackages where
  packages : List StreamedPackage
  timestamp : Int
  device_serial : String
  deriving DecidableEq, Repr

/-! ## String primitives

The Rust `str` operations used by the repository are modelled on the character
lists underlying `String`, by structural recursion, so that the kernel can
evaluate every model on concrete inputs.  ASCII whitespace (the alphabet of
adb output) stands in for Rust's Unicode whitespace. -/

/-- Leading-whitespace strip on a character list. -/
def drop_ws (cs : List Char) : List Char :=
  cs.dropWhile Char.isWhitespace

/-- Rust `str::trim`: strip leading and trailing whitespace. -/
def rust_trim (s : String) : String :=
  ⟨(drop_ws (drop_ws s.data).reverse).reverse⟩

/-- Rust `str::starts_with` for string patterns. -/
def starts_with (s pre : String) : Bool :=
  pre.data.isPrefixOf s.data

/-- Drop of the first `n` characters of a string. -/
def str_drop (s : String) (n : Nat) : String :=
  ⟨s.data.drop n⟩

/-- Split of a character list at every separator selected by `p`; like the
Rust splitters, adjacent separators produce empty pieces. -/
def split_by (p : Char → Bool) : List Char → List (List Char)
  | [] => [[]]
  | d :: ds =>
    if p d then [] :: split_by p ds
    else
      match split_by p ds with
      | g :: gs => (d :: g) :: gs
      | [] => [[d]]

/-- Rust `str::split_once` for a one-character pattern. -/
def split_once_char (c : Char) : List Char → Option (List Char × List Char)
  | [] => none
  | d :: ds =>
    if d = c then some ([], ds)
    else (split_once_char c ds).map (fun p => (d :: p.1, p.2))

/-- Lexicographic comparison of character lists: the order Rust's `str` `cmp`
induces, restricted to the `≤` the sort observes. -/
def chars_le : List Char → List Char → Bool
  | [], _ => true
  | _ :: _, [] => false
  | c :: cs, d :: ds => if c = d then chars_le cs ds else decide (c < d)

instance {E A : Type} [DecidableEq E] [DecidableEq A] : DecidableEq (Except E A) :=
  fun x y =>
    match x, y with
    | Except.ok a, Except.ok b =>
      if h : a = b then Decidable.isTrue (by rw [h])
      else Decidable.isFalse (by simp [h])
    | Except.error a, Except.error b =>
      if h : a = b then Decidable.isTrue (by rw [h])
      else Decidable.isFalse (by simp [h])
    | Except.ok _, Except.error _ => Decidable.isFalse (by simp)
    | Except.error _, Except.ok _ => Decidable.isFalse (by simp)

/-! ## package_stream.rs: line parsing and the streaming loop -/

/-- Handling of one stdout line of `pm list packages -a` (lines 210-216):
strip the `package:` text at the front, trim, skip empty names. -/
def parse_package_line (line : String) : Option String :=
  if starts_with line "package:" then
    let package_name := rust_trim (str_drop line ("package:".length))
    if package_name.data.isEmpty then none else some package_name
  else
    none

/-- The classification join performed on each streamed package name
(lines 218-225).  The pure lookup functions `dn` (`get_display_name`) and `sl`
(`get_safety_level(..).as_str()`) of package_database.rs are parameters of the
embedding; no claim depends on the contents of the static package table. -/
def classify_package (dn sl : String → String) (package_name : String) :
    StreamedPackage :=
  { package_name := package_name
    app_name := dn package_name
    safety_level := sl package_name }

/-- Loop state of `stream_packages_from_adb` (lines 204-206) together with the
events emitted so far. -/
structure LiveState where
  all_packages : List StreamedPackage
  chunk : List StreamedPackage
  chunk_index : Nat
  events : List StreamEvent
  deriving Repr

/-- Body of the `while let` loop of `stream_packages_from_adb`
(lines 209-253) for one stdout line. -/
def stream_step (dn sl : String → String) (st : LiveState) (line : String) :
    LiveState :=
  match parse_package_line line with
  | none => st
  | some package_name =>
    let pkg := classify_package dn sl package_name
    let chunk1 := st.chunk ++ [pkg]
    let all1 := st.all_packages ++ [pkg]
    if CHUNK_SIZE ≤ chunk1.length then
      { all_packages := all1
        chunk := []
        chunk_index := st.chunk_index + 1
        events := st.events ++
          [StreamEvent.chunk
            { packages := chunk1
              chunk_index := st.chunk_index
              total_so_far := all1.length
              is_final := false },
           StreamEvent.progress
            { status := "Loading packages... (" ++ toString all1.length ++ ")"
              packages_loaded := all1.length
              is_complete := false
              error := none }] }
    else
      { all_packages := all1
        chunk := chunk1
        chunk_index := st.chunk_index
        events := st.events }

/-- Ordering used by the end-of-stream sort: lexicographic comparison of
package identifiers. -/
def pkg_le (a b : StreamedPackage) : Prop :=
  chars_le a.package_name.data b.package_name.data = true

instance : DecidableRel pkg_le :=
  fun a b =>
    inferInstanceAs (Decidable (chars_le a.package_name.data b.package_name.data = true))

/-- End-of-stream sort `all_packages.sort_by(|a, b| a.package_name.cmp(..))`
(line 274).  Rust's `sort_by` is a stable comparison sort; it is modelled by
the stable insertion sort. -/
def sort_packages (l : List StreamedPackage) : List StreamedPackage :=
  List.insertionSort pkg_le l

/-- Result of `stream_packages_from_adb`: subprocess spawn attempts made, the
events emitted, and the returned value. -/
structure StreamResult where
  spawns : Nat
  events : List StreamEvent
  result : Except String (List StreamedPackage)
  deriving Repr

/-- The start progress event emitted before the listing subprocess is spawned
(lines 181-186). -/
def live_start_event : StreamEvent :=
  StreamEvent.progress
    { status := "Starting package scan..."
      packages_loaded := 0
      is_complete := false
      error := none }

/-- Initial loop state of `stream_packages_from_adb` (lines 204-206), after
the start progress event was emitted. -/
def live_init : LiveState :=
  { all_packages := [], chunk := [], chunk_index := 0, events := [live_start_event] }

/-- The streaming loop of `stream_packages_from_adb` over the stdout lines. -/
def live_fold (dn sl : String → String) (lines : List String) : LiveState :=
  lines.foldl (stream_step dn sl) live_init

/-- The whole of `stream_packages_from_adb` (lines 173-293).  World inputs:
`adb_found` is the outcome of `find_adb_path_async` (whose probe is one spawn
attempt), `spawn_ok` whether the `pm list packages -a` child could be spawned,
`lines` its streamed stdout lines, and `exit_ok` its exit status.  The
wall-clock `duration_ms` is abstracted to 0. -/
def stream_packages_from_adb (dn sl : String → String) (adb_found spawn_ok : Bool)
    (lines : List String) (exit_ok : Bool) : StreamResult :=
  if !adb_found then
    { spawns := 1, events := [], result := Except.error "ADB not found" }
  else
    if !spawn_ok then
      { spawns := 2
        events := [live_start_event]
        result := Except.error "Failed to spawn ADB process" }
    else
      let st := live_fold dn sl lines
      if exit_ok then
        let evs1 :=
          if st.chunk.isEmpty then st.events
          else st.events ++
            [StreamEvent.chunk
              { packages := st.chunk
                chunk_index := st.chunk_index
                total_so_far := st.all_packages.length
                is_final := true }]
        let sorted := sort_packages st.all_packages
        { spawns := 2
          events := evs1 ++
            [StreamEvent.complete
              { total_packages := sorted.length
                duration_ms := 0
                from_cache := false },
             StreamEvent.progress
              { status := "Loaded " ++ toString sorted.length ++ " packages"
                packages_loaded := sorted.length
                is_complete := true
                error := none }]
          result := Except.ok sorted }
      else
        { spawns := 2, events := st.events, result := Except.error "ADB command failed" }

/-! ## package_stream.rs: device serial lookup -/

/-- Rust `str::lines`; every consumer below trims each line and skips empty
ones, so the possible trailing empty segment is inert. -/
def rust_lines (s : String) : List String :=
  (split_by (fun c => c == '\n') s.data).map (fun cs => String.mk cs)

/-- Rust `str::split_whitespace`: split at whitespace, dropping empty pieces. -/
def split_whitespace (s : String) : List String :=
  ((split_by Char.isWhitespace s.data).filter (fun cs => !cs.isEmpty)).map
    (fun cs => String.mk cs)

/-- Scan of one `adb devices -l` line by `get_device_serial_async`
(lines 156-166): the serial of the first ready device. -/
def serial_of_line (raw : String) : Option String :=
  let line := rust_trim raw
  if line.data.isEmpty || starts_with line "List of devices"
      || starts_with line "*" then
    none
  else
    match split_whitespace line with
    | p0 :: p1 :: _ => if p1 = "device" then some p0 else none
    | _ => none

/-- First ready device serial in an `adb devices -l` stdout. -/
def first_device_serial (stdout : String) : Option String :=
  (rust_lines stdout).findSome? serial_of_line

/-- World inputs of `get_device_serial_async`: whether `find_adb_path_async`
resolves a path, and the exit status and stdout of `adb devices -l`. -/
structure SerialWorld where
  adb_found : Bool
  devices_exit_ok : Bool
  devices_stdout : String
  deriving Repr

/-- The whole of `get_device_serial_async` (lines 140-169), returning its
subprocess spawn attempts (the `adb version` probe of `find_adb_path_async`,
then `adb devices -l` when a path resolved) and its result. -/
def get_device_serial_async (w : SerialWorld) : Nat × Except String String :=
  if !w.adb_found then
    (1, Except.error "ADB not found")
  else if !w.devices_exit_ok then
    (2, Except.error "ADB command failed")
  else
    match first_device_serial w.devices_stdout with
    | some serial => (2, Except.ok serial)
    | none => (2, Except.error "No device connected")

/-! ## package_stream.rs: cached replay and start_package_stream -/

/-- Rust `slice::chunks n` on lists.  The fuel argument (any bound on the list
length) keeps the recursion structural so that the kernel can evaluate it. -/
def chunks_go {α : Type} (n : Nat) : Nat → List α → List (List α)
  | _, [] => []
  | 0, l => [l]
  | f + 1, l => l.take n :: chunks_go n f (l.drop n)

/-- Rust `slice::chunks n` on lists. -/
def chunks {α : Type} (n : Nat) (l : List α) : List (List α) :=
  chunks_go n l.length l

/-- Events of the cached replay path of `start_package_stream`
(lines 316-350): a loading progress event, one chunk event per slice of 30
with the flags computed exactly as in the source, a completion event tagged
`from_cache`, and a final progress event. -/
def replay_events (packages : List StreamedPackage) : List StreamEvent :=
  [StreamEvent.progress
    { status := "Loading from cache..."
      packages_loaded := 0
      is_complete := false
      error := none }] ++
  ((chunks CHUNK_SIZE packages).enum.map (fun ic =>
    StreamEvent.chunk
      { packages := ic.2
        chunk_index := ic.1
        total_so_far := min ((ic.1 + 1) * CHUNK_SIZE) packages.length
        is_final := decide (packages.length ≤ (ic.1 + 1) * CHUNK_SIZE) })) ++
  [StreamEvent.complete
    { total_packages := packages.length
      duration_ms := 0
      from_cache := true },
   StreamEvent.progress
    { status := "Loaded " ++ toString packages.length ++ " packages (cached)"
      packages_loaded := packages.length
      is_complete := true
      error := none }]

/-- World inputs of one `start_package_stream` call: the serial lookup world,
the world of the enumeration subprocess, and the instant of the call. -/
structure StartWorld where
  serial : SerialWorld
  enum_adb_found : Bool
  spawn_ok : Bool
  pm_lines : List String
  pm_exit_ok : Bool
  now : Int
  deriving Repr

/-- Observable outcome of one `start_package_stream` call: spawn attempts of
the serial lookup, spawn attempts of the enumeration task (0 on a cache
replay), the emitted events, the package cache after the call, and the
command's immediate return value. -/
structure StartResult where
  serial_spawns : Nat
  stream_spawns : Nat
  events : List StreamEvent
  new_cache : Option CachedPackages
  ret : Except String Unit
  deriving Repr

/-- The spawned-task branch of `start_package_stream` (lines 362-382): run the
live enumeration; on success replace the cache, on failure emit the error
progress event and leave the cache alone.  The command itself already returned
`Ok(())`. -/
def live_branch (dn sl : String → String) (w : StartWorld)
    (cache : Option CachedPackages) (device_serial : String)
    (serial_spawns : Nat) : StartResult :=
  let r := stream_packages_from_adb dn sl w.enum_adb_found w.spawn_ok
    w.pm_lines w.pm_exit_ok
  match r.result with
  | Except.ok packages =>
    { serial_spawns := serial_spawns
      stream_spawns := r.spawns
      events := r.events
      new_cache := some
        { packages := packages, timestamp := w.now, device_serial := device_serial }
      ret := Except.ok () }
  | Except.error error =>
    { serial_spawns := serial_spawns
      stream_spawns := r.spawns
      events := r.events ++
        [StreamEvent.progress
          { status := "Error loading packages"
            packages_loaded := 0
            is_complete := true
            error := some error }]
      new_cache := cache
      ret := Except.ok () }

/-- The whole of `start_package_stream` (lines 300-385): resolve the device
serial (propagating its failure), replay a fresh matching cache entry when
`force_refresh` is off, and otherwise run the live enumeration task. -/
def start_package_stream (dn sl : String → String) (w : StartWorld)
    (force_refresh : Bool) (cache : Option CachedPackages) : StartResult :=
  match get_device_serial_async w.serial with
  | (n, Except.error e) =>
    { serial_spawns := n
      stream_spawns := 0
      events := []
      new_cache := cache
      ret := Except.error e }
  | (n, Except.ok device_serial) =>
    match cache with
    | some cached =>
      if !force_refresh && (cached.device_serial == device_serial)
          && decide (w.now - cached.timestamp < (CACHE_DURATION_SECS : Int)) then
        { serial_spawns := n
          stream_spawns := 0
          events := replay_events cached.packages
          new_cache := cache
          ret := Except.ok () }
      else
        live_branch dn sl w cache device_serial n
    | none => live_branch dn sl w cache device_serial n

/-! ## Event observations used by the claims -/

/-- The chunk payloads among an event trace, in emission order. -/
def chunk_events (evs : List StreamEvent) : List PackageChunk :=
  evs.filterMap (fun e =>
    match e with
    | StreamEvent.chunk c => some c
    | _ => none)

/-- Concatenation of the packages carried by all emitted chunk events, in
emission order. -/
def emitted_packages (evs : List StreamEvent) : List StreamedPackage :=
  ((chunk_events evs).map PackageChunk.packages).flatten

/-- Number of emitted chunk events marked terminal. -/
def final_chunk_count (evs : List StreamEvent) : Nat :=
  ((chunk_events evs).filter (fun c => c.is_final)).length

/-- The packages a live pass discovers, in discovery order: one classified
record per stdout line naming a package. -/
def discovered (dn sl : String → String) (lines : List String) :
    List StreamedPackage :=
  lines.filterMap (fun l => (parse_package_line l).map (classify_package dn sl))

/-! ## adb.rs: error taxonomy and the synchronous executor -/

/-- The `AdbError` taxonomy (adb.rs lines 12-22). -/
inductive AdbError where
  | NoDeviceConnected
  | AdbNotFound
  | AdbServerNotRunning
  | DeviceOffline
  | DeviceUnauthorized
  | PermissionDenied
  | Timeout
  | CommandFailed (msg : String)
  | ParseError (msg : String)
  deriving DecidableEq, Repr

/-- Scan for a character-list needle anywhere in a haystack. -/
def sub_scan (needle : List Char) : List Char → Bool
  | [] => needle.isEmpty
  | c :: cs => needle.isPrefixOf (c :: cs) || sub_scan needle cs

/-- Rust `str::contains` for string patterns. -/
def contains_sub (s pat : String) : Bool :=
  sub_scan pat.data s.data

/-- Stderr classification of `execute_adb_command` on non-zero exit
(adb.rs lines 176-193), applied to the trimmed stderr text. -/
def classify_stderr (error_msg : String) : AdbError :=
  if contains_sub error_msg "no devices/emulators found"
      || contains_sub error_msg "device not found" then
    AdbError.NoDeviceConnected
  else if contains_sub error_msg "device offline" then
    AdbError.DeviceOffline
  else if contains_sub error_msg "device unauthorized" then
    AdbError.DeviceUnauthorized
  else if contains_sub error_msg "cannot connect to daemon"
      || contains_sub error_msg "daemon not running" then
    AdbError.AdbServerNotRunning
  else if contains_sub error_msg "permission denied"
      || contains_sub error_msg "access denied" then
    AdbError.PermissionDenied
  else
    AdbError.CommandFailed error_msg

/-- World inputs of one `execute_adb_command` call: whether the memoized
`ADB_PATH` resolved, whether `Command::output` succeeded, and the exit status,
stdout and stderr of the subprocess. -/
structure ExecWorld where
  adb_found : Bool
  spawn_ok : Bool
  exit_ok : Bool
  stdout : String
  stderr : String
  deriving DecidableEq, Repr

/-- The whole of `execute_adb_command` (adb.rs lines 161-199), returning its
subprocess spawn attempts (one `Command::output` call once the memoized path
resolved; the lazily-initialized path probe is not charged to the call) and
its result.  The io error text of a failed spawn is abstracted. -/
def execute_adb_command (w : ExecWorld) : Nat × Except AdbError String :=
  if !w.adb_found then
    (0, Except.error AdbError.AdbNotFound)
  else if !w.spawn_ok then
    (1, Except.error (AdbError.CommandFailed "Failed to execute ADB"))
  else if !w.exit_ok then
    (1, Except.error (classify_stderr (rust_trim w.stderr)))
  else
    (1, Except.ok w.stdout)

/-! ## adb.rs: device listing parser and registry -/

/-- A parsed `DeviceInfo` record (adb.rs lines 48-55). -/
structure DeviceInfo where
  serial : String
  state : String
  model : Option String
  product : Option String
  device : Option String
  transport_id : Option String
  deriving DecidableEq, Repr

/-- Rust `str::split_once(':')`. -/
def split_once_colon (s : String) : Option (String × String) :=
  (split_once_char ':' s.data).map (fun p => (String.mk p.1, String.mk p.2))

/-- Application of one trailing `key:value` column to a device record
(adb.rs lines 234-244). -/
def apply_device_prop (d : DeviceInfo) (part : String) : DeviceInfo :=
  match split_once_colon part with
  | none => d
  | some (key, value) =>
    if key = "model" then { d with model := some value }
    else if key = "product" then { d with product := some value }
    else if key = "device" then { d with device := some value }
    else if key = "transport_id" then { d with transport_id := some value }
    else d

/-- Parse of one `adb devices -l` line (adb.rs lines 205-247); `none` for the
skipped header, comment and too-short lines. -/
def parse_device_line (raw : String) : Option DeviceInfo :=
  let line := rust_trim raw
  if line.data.isEmpty || starts_with line "List of devices"
      || starts_with line "*" then
    none
  else
    match split_whitespace line with
    | p0 :: p1 :: rest =>
      some (rest.foldl apply_device_prop
        { serial := p0, state := p1, model := none, product := none,
          device := none, transport_id := none })
    | _ => none

/-- The whole of `parse_adb_devices` (adb.rs lines 202-250). -/
def parse_adb_devices (output : String) : List DeviceInfo :=
  (rust_lines output).filterMap parse_device_line

/-- The `DeviceCache` state (adb.rs lines 59-86). -/
structure DeviceCache where
  devices : List DeviceInfo
  last_update : Int
  cache_duration : Nat
  deriving DecidableEq, Repr

/-- `DeviceCache::new` (lines 66-72): empty, with a last update 10 s in the
past to force the initial fetch, and a 5 s TTL. -/
def DeviceCache.new (now : Int) : DeviceCache :=
  { devices := [], last_update := now - 10, cache_duration := 5 }

/-- `DeviceCache::is_expired` (lines 74-76): the elapsed time strictly
exceeds the TTL. -/
def DeviceCache.is_expired (c : DeviceCache) (now : Int) : Bool :=
  decide ((c.cache_duration : Int) < now - c.last_update)

/-- Observable outcome of one `get_devices` call. -/
structure GetDevicesResult where
  spawns : Nat
  result : Except AdbError (List DeviceInfo)
  new_cache : DeviceCache
  deriving Repr

/-- The whole of `get_devices` (adb.rs lines 253-275): serve the cache when
fresh and not forced, otherwise list, parse, filter to ready devices and
replace the cache. -/
def get_devices (w : ExecWorld) (force_refresh : Bool) (cache : DeviceCache)
    (now : Int) : GetDevicesResult :=
  if !force_refresh && !(cache.is_expired now) then
    { spawns := 0, result := Except.ok cache.devices, new_cache := cache }
  else
    match execute_adb_command w with
    | (n, Except.error e) =>
      { spawns := n, result := Except.error e, new_cache := cache }
    | (n, Except.ok output) =>
      let connected_devices :=
        (parse_adb_devices output).filter (fun d => d.state == "device")
      { spawns := n
        result := Except.ok connected_devices
        new_cache :=
          { devices := connected_devices
            last_update := now
            cache_duration := cache.cache_duration } }

/-- The device list carried by an ok registry result ([] on error). -/
def ok_devices (r : Except AdbError (List DeviceInfo)) : List DeviceInfo :=
  match r with
  | Except.ok l => l
  | Except.error _ => []

/-! ## system_health.rs: per-metric caches -/

/-- `CachedMetric<T>` (system_health.rs lines 97-101). -/
structure CachedMetric (T : Type) where
  data : T
  updated_at : Int
  ttl : Nat
  deriving DecidableEq, Repr

/-- `CachedMetric::new` (lines 104-110): default payload, with a timestamp
`ttl + 1` seconds in the past so the first pass fetches. -/
def CachedMetric.new (T : Type) [Inhabited T] (now : Int) (ttl_secs : Nat) :
    CachedMetric T :=
  { data := default, updated_at := now - (ttl_secs + 1), ttl := ttl_secs }

/-- `CachedMetric::is_stale` (lines 112-114). -/
def CachedMetric.is_stale {T : Type} (m : CachedMetric T) (now : Int) : Bool :=
  decide ((m.ttl : Int) < now - m.updated_at)

/-- `CachedMetric::update` (lines 116-119). -/
def CachedMetric.update {T : Type} (m : CachedMetric T) (data : T) (now : Int) :
    CachedMetric T :=
  { data := data, updated_at := now, ttl := m.ttl }

/-- `CachedMetric::get` (lines 121-123). -/
def CachedMetric.get {T : Type} (m : CachedMetric T) : T :=
  m.data

/-- `HealthCache` (lines 126-135).  The payloads of the six structured metrics
are abstract types: no claim depends on the numeric parsers that produce them,
only on how the collector moves them around. -/
structure HealthCache (S M C B T A : Type) where
  storage : CachedMetric S
  memory : CachedMetric M
  cpu : CachedMetric C
  services : CachedMetric Nat
  battery : CachedMetric (List B)
  thermal : CachedMetric T
  app_counts : CachedMetric A
  device_id : String

/-- `HealthCache::new` (lines 138-149) with its seven per-metric TTLs. -/
def HealthCache.new {S M C B T A : Type}
    [Inhabited S] [Inhabited M] [Inhabited C] [Inhabited T] [Inhabited A]
    (now : Int) : HealthCache S M C B T A :=
  { storage := CachedMetric.new S now 3
    memory := CachedMetric.new M now 2
    cpu := CachedMetric.new C now 3
    services := CachedMetric.new Nat now 10
    battery := CachedMetric.new (List B) now 30
    thermal := CachedMetric.new T now 5
    app_counts := CachedMetric.new A now 60
    device_id := "" }

/-- `HealthCache::invalidate_for_device` (lines 151-163): on a device change,
remember the new owner and reset every per-metric cache to its initial stale
state. -/
def HealthCache.invalidate_for_device {S M C B T A : Type}
    [Inhabited S] [Inhabited M] [Inhabited C] [Inhabited T] [Inhabited A]
    (c : HealthCache S M C B T A) (device_id : String) (now : Int) :
    HealthCache S M C B T A :=
  if c.device_id = device_id then c
  else { (HealthCache.new now : HealthCache S M C B T A) with device_id := device_id }

/-! ## system_health.rs: the collection pass -/

/-- The `SystemHealth` snapshot (lines 76-86). -/
structure SystemHealth (S M C B T A : Type) where
  storage : S
  memory : M
  cpu : C
  services_count : Nat
  battery_drainers : List B
  thermal : T
  app_counts : A
  timestamp : Nat
  device_id : String

/-- The `HealthUpdateEvent` payload of a `system_health_update` event
(lines 89-93). -/
structure HealthUpdateEvent (S M C B T A : Type) where
  health : SystemHealth S M C B T A
  metrics_updated : List String
  is_complete : Bool

/-- World inputs of one collection pass: the `adb get-serialno` outcome and
the outcome of each metric fetcher (`none` models a fetch that fails). -/
structure HealthWorld (S M C B T A : Type) where
  serialno : Option String
  fetch_storage : Option S
  fetch_memory : Option M
  fetch_cpu : Option C
  fetch_services : Option Nat
  fetch_battery : Option (List B)
  fetch_thermal : Option T
  fetch_app_counts : Option A
  timestamp_ms : Nat
  now : Int

/-- The device identity a pass observes (lines 516-520): the trimmed
`get-serialno` stdout, or the empty string when the command fails. -/
def observed_device_id {S M C B T A : Type} (w : HealthWorld S M C B T A) :
    String :=
  match w.serialno with
  | some s => rust_trim s
  | none => ""

/-- Outcome of one metric block of the pass. -/
structure MetricStep (T : Type) where
  slot : CachedMetric T
  updated : List String
  value : T

/-- One metric block of `collect_system_health` (e.g. lines 530-544): when the
slot is stale try the fetch, keeping the slot and the updated-metrics list
unchanged on failure; then read the slot's current value for the snapshot. -/
def step_metric {T : Type} (m : CachedMetric T) (fetched : Option T)
    (name : String) (updated : List String) (now : Int) : MetricStep T :=
  if m.is_stale now then
    match fetched with
    | some v => { slot := m.update v now, updated := updated ++ [name], value := v }
    | none => { slot := m, updated := updated, value := m.get }
  else
    { slot := m, updated := updated, value := m.get }

/-- Observable outcome of one collection pass. -/
structure CollectResult (S M C B T A : Type) where
  health : SystemHealth S M C B T A
  events : List (HealthUpdateEvent S M C B T A)
  new_cache : HealthCache S M C B T A

/-- The whole of `collect_system_health` (lines 505-677): observe the device
identity, invalidate the cache on a device change, then work through the seven
metric blocks in source order, emitting partial update events after the
storage, memory and services blocks and a final complete event at the end. -/
def collect_system_health {S M C B T A : Type}
    [Inhabited S] [Inhabited M] [Inhabited C] [Inhabited T] [Inhabited A]
    (w : HealthWorld S M C B T A) (cache0 : HealthCache S M C B T A) :
    CollectResult S M C B T A :=
  let device_id := observed_device_id w
  let c0 := cache0.invalidate_for_device device_id w.now
  let h0 : SystemHealth S M C B T A :=
    { storage := default, memory := default, cpu := default, services_count := 0,
      battery_drainers := [], thermal := default, app_counts := default,
      timestamp := w.timestamp_ms, device_id := device_id }
  let s1 := step_metric c0.storage w.fetch_storage "storage" [] w.now
  let h1 := { h0 with storage := s1.value }
  let e1 : HealthUpdateEvent S M C B T A :=
    { health := h1, metrics_updated := s1.updated, is_complete := false }
  let s2 := step_metric c0.memory w.fetch_memory "memory" s1.updated w.now
  let h2 := { h1 with memory := s2.value }
  let e2 : HealthUpdateEvent S M C B T A :=
    { health := h2, metrics_updated := s2.updated, is_complete := false }
  let s3 := step_metric c0.cpu w.fetch_cpu "cpu" s2.updated w.now
  let h3 := { h2 with cpu := s3.value }
  let s4 := step_metric c0.services w.fetch_services "services" s3.updated w.now
  let h4 := { h3 with services_count := s4.value }
  let e3 : HealthUpdateEvent S M C B T A :=
    { health := h4, metrics_updated := s4.updated, is_complete := false }
  let s5 := step_metric c0.app_counts w.fetch_app_counts "app_counts" s4.updated w.now
  let h5 := { h4 with app_counts := s5.value }
  let s6 := step_metric c0.thermal w.fetch_thermal "thermal" s5.updated w.now
  let h6 := { h5 with thermal := s6.value }
  let s7 := step_metric c0.battery w.fetch_battery "battery" s6.updated w.now
  let h7 := { h6 with battery_drainers := s7.value }
  let e4 : HealthUpdateEvent S M C B T A :=
    { health := h7, metrics_updated := s7.updated, is_complete := true }
  { health := h7
    events := [e1, e2, e3, e4]
    new_cache :=
      { storage := s1.slot, memory := s2.slot, cpu := s3.slot,
        services := s4.slot, battery := s7.slot, thermal := s6.slot,
        app_counts := s5.slot, device_id := c0.device_id } }

/-- The Tauri command `get_system_health` (lines 683-685).  The Rust `Result`
errs only on mutex poisoning, which the sequential model excludes, so the
command always returns the collected snapshot. -/
def get_system_health {S M C B T A : Type}
    [Inhabited S] [Inhabited M] [Inhabited C] [Inhabited T] [Inhabited A]
    (w : HealthWorld S M C B T A) (cache0 : HealthCache S M C B T A) :
    Except String (SystemHealth S M C B T A) :=
  Except.ok (collect_system_health w cache0).health

/-! ## Invariant of the streaming loop -/

/-- Invariant maintained by the streaming loop of `stream_packages_from_adb`:
the emitted chunks followed by the in-flight chunk hold exactly the
accumulated packages, the in-flight chunk is a proper remainder modulo the
chunk size, and every chunk emitted inside the loop is a full, non-terminal
one. -/
def LiveInv (st : LiveState) : Prop :=
  emitted_packages st.events ++ st.chunk = st.all_packages ∧
  st.chunk.length < CHUNK_SIZE ∧
  st.all_packages.length % CHUNK_SIZE = st.chunk.length ∧
  ∀ c ∈ chunk_events st.events, c.is_final = false ∧ c.packages.length = CHUNK_SIZE

/-! ## Concrete inputs used by witnesses and counterexamples -/

/-- Identity display-name lookup, used to instantiate witnesses. -/
def dn0 : String → String := fun s => s

/-- Constant safety-level lookup, used to instantiate witnesses. -/
def sl0 : String → String := fun _ => "Safe"

/-- Listing output with `n` distinct package lines. -/
def sample_lines (n : Nat) : List String :=
  (List.range n).map (fun i => "package:app" ++ toString i)

/-- An `adb devices -l` stdout with one ready device. -/
def sample_devices_stdout : String :=
  "List of devices attached\nABC123 device product:example model:Pixel_5 device:redfin transport_id:1\nDEF456 offline\n"

/-- Serial-lookup world resolving the ready device `ABC123`. -/
def sample_serial_world : SerialWorld :=
  { adb_found := true, devices_exit_ok := true,
    devices_stdout := sample_devices_stdout }

/-- A streamed package record with identifier `com.a`. -/
def sample_pkg : StreamedPackage :=
  { package_name := "com.a", app_name := "com.a", safety_level := "Safe" }

/-- A package-cache entry for device `ABC123`, captured at instant 0. -/
def sample_cache_entry : CachedPackages :=
  { packages := [sample_pkg], timestamp := 0, device_serial := "ABC123" }

/-- A `start_package_stream` world at instant 100 (inside the 300 s window
of `sample_cache_entry`). -/
def c2_world : StartWorld :=
  { serial := sample_serial_world, enum_adb_found := true, spawn_ok := true,
    pm_lines := sample_lines 2, pm_exit_ok := true, now := 100 }

/-- A `start_package_stream` world whose listing subprocess exits non-zero. -/
def c9_world : StartWorld :=
  { serial := sample_serial_world, enum_adb_found := true, spawn_ok := true,
    pm_lines := sample_lines 2, pm_exit_ok := false, now := 0 }

/-- An executor world whose stderr holds both the offline and the
unauthorized patterns. -/
def c3_world : ExecWorld :=
  { adb_found := true, spawn_ok := true, exit_ok := false, stdout := "",
    stderr := "error: device offline, device unauthorized" }

/-- An executor world whose stderr holds only the unauthorized pattern. -/
def c3_plain_world : ExecWorld :=
  { adb_found := true, spawn_ok := true, exit_ok := false, stdout := "",
    stderr := "adb: device unauthorized" }

/-- An executor world returning the sample device listing. -/
def sample_exec_world : ExecWorld :=
  { adb_found := true, spawn_ok := true, exit_ok := true,
    stdout := sample_devices_stdout, stderr := "" }

/-- A health world over `Nat` payloads in which every fetch succeeds except
the storage fetch. -/
def c8_world : HealthWorld Nat Nat Nat Nat Nat Nat :=
  { serialno := some "ABC123", fetch_storage := none, fetch_memory := some 7,
    fetch_cpu := some 8, fetch_services := some 9, fetch_battery := some [10],
    fetch_thermal := some 11, fetch_app_counts := some 12,
    timestamp_ms := 5, now := 1000 }

/-- A health cache over `Nat` payloads owned by device `OLD`, holding a
distinctive storage value. -/
def c8_cache : HealthCache Nat Nat Nat Nat Nat Nat :=
  { storage := { data := 42, updated_at := 999, ttl := 3 }
    memory := { data := 1, updated_at := 0, ttl := 2 }
    cpu := { data := 2, updated_at := 0, ttl := 3 }
    services := { data := 3, updated_at := 0, ttl := 10 }
    battery := { data := [4], updated_at := 0, ttl := 30 }
    thermal := { data := 5, updated_at := 0, ttl := 5 }
    app_counts := { data := 6, updated_at := 0, ttl := 60 }
    device_id := "OLD" }

/-- The same health cache already owned by device `ABC123`. -/
def c8_cache_same : HealthCache Nat Nat Nat Nat Nat Nat :=
  { c8_cache with device_id := "ABC123" }

/-- The terminal chunk emitted by a one-package live pass. -/
def c10_live_chunk : PackageChunk :=
  { packages := [classify_package dn0 sl0 "app0"]
    chunk_index := 0
    total_so_far := 1
    is_final := true }

/-- The single chunk emitted by a one-package cache replay. -/
def c10_replay_chunk : PackageChunk :=
  { packages := [sample_pkg]
    chunk_index := 0
    total_so_far := 1
    is_final := true }

end DebloatAI

namespace DebloatAI

/-! ## Order lemmas for the lexicographic comparison -/

theorem chars_le_total : ∀ as bs : List Char,
    chars_le as bs = true ∨ chars_le bs as = true
  | [], _ => Or.inl rfl
  | _ :: _, [] => Or.inr rfl
  | a :: as, b :: bs => by
    by_cases h : a = b
    · subst h
      simpa [chars_le] using chars_le_total as bs
    · rcases lt_trichotomy a b with hlt | heq | hgt
      · left
        simp [chars_le, h, hlt]
      · exact absurd heq h
      · right
        have h' : ¬ b = a := fun hh => h hh.symm
        simp [chars_le, h', hgt]

theorem chars_le_trans : ∀ as bs cs : List Char,
    chars_le as bs = true → chars_le bs cs = true → chars_le as cs = true
  | [], _, _, _, _ => rfl
  | _ :: _, [], _, h1, _ => by simp [chars_le] at h1
  | _ :: _, _ :: _, [], _, h2 => by simp [chars_le] at h2
  | a :: as, b :: bs, c :: cs, h1, h2 => by
    simp only [chars_le] at h1 h2 ⊢
    by_cases hab : a = b
    · subst hab
      by_cases hbc : a = c
      · subst hbc
        simp only [if_pos rfl] at h1 h2 ⊢
        exact chars_le_trans as bs cs h1 h2
      · simp only [if_pos rfl] at h1
        simp only [if_neg hbc] at h2 ⊢
        exact h2
    · by_cases hbc : b = c
      · subst hbc
        simp only [if_neg hab] at h1 ⊢
        exact h1
      · simp only [if_neg hab, decide_eq_true_eq] at h1
        simp only [if_neg hbc, decide_eq_true_eq] at h2
        have hac : a < c := lt_trans h1 h2
        simp [ne_of_lt hac, hac]

theorem pkg_le_total (a b : StreamedPackage) : pkg_le a b ∨ pkg_le b a :=
  chars_le_total a.package_name.data b.package_name.data

theorem pkg_le_trans {a b c : StreamedPackage} :
    pkg_le a b → pkg_le b c → pkg_le a c :=
  chars_le_trans a.package_name.data b.package_name.data c.package_name.data

/-- The end-of-stream sort is a permutation of its input. -/
theorem sort_packages_perm (l : List StreamedPackage) : List.Perm (sort_packages l) l :=
  List.perm_insertionSort pkg_le l

/-- The end-of-stream sort sorts by package identifier. -/
theorem sort_packages_sorted (l : List StreamedPackage) :
    List.Sorted pkg_le (sort_packages l) := by
  haveI : IsTotal StreamedPackage pkg_le := ⟨pkg_le_total⟩
  haveI : IsTrans StreamedPackage pkg_le := ⟨fun _ _ _ => pkg_le_trans⟩
  exact List.sorted_insertionSort pkg_le l

/-! ## Lemmas about list chunking -/

theorem chunks_go_flatten {α : Type} (n : Nat) (hn : 0 < n) :
    ∀ (f : Nat) (l : List α), l.length ≤ f → (chunks_go n f l).flatten = l
  | f, [], _ => by cases f <;> rfl
  | 0, a :: l, h => by simp at h
  | f + 1, a :: l, h => by
    simp only [chunks_go, List.flatten_cons]
    rw [chunks_go_flatten n hn f ((a :: l).drop n) (by simp at h ⊢; omega),
      List.take_append_drop]

/-- Rust `chunks` flattens back to the original list. -/
theorem chunks_flatten {α : Type} (n : Nat) (hn : 0 < n) (l : List α) :
    (chunks n l).flatten = l :=
  chunks_go_flatten n hn l.length l le_rfl

theorem chunks_go_mem {α : Type} (n : Nat) (hn : 0 < n) :
    ∀ (f : Nat) (l : List α) (c : List α), l.length ≤ f → c ∈ chunks_go n f l →
      c ≠ [] ∧ c.length ≤ n
  | f, [], c, _, hc => by cases f <;> simp [chunks_go] at hc
  | 0, a :: l, c, h, _ => by simp at h
  | f + 1, a :: l, c, h, hc => by
    simp only [chunks_go, List.mem_cons] at hc
    rcases hc with rfl | hc
    · constructor
      · simp [List.take_eq_nil_iff]
        omega
      · rw [List.length_take]
        exact Nat.min_le_left _ _
    · exact chunks_go_mem n hn f ((a :: l).drop n) c (by simp at h ⊢; omega) hc

/-- Every chunk produced by Rust `chunks n` (with positive `n`) is non-empty
and holds at most `n` elements. -/
theorem chunks_mem {α : Type} (n : Nat) (hn : 0 < n) (l : List α) (c : List α)
    (hc : c ∈ chunks n l) : c ≠ [] ∧ c.length ≤ n :=
  chunks_go_mem n hn l.length l c le_rfl hc

/-! ## Lemmas about event traces -/

theorem chunk_events_append (evs evs' : List StreamEvent) :
    chunk_events (evs ++ evs') = chunk_events evs ++ chunk_events evs' := by
  simp [chunk_events, List.filterMap_append]

theorem emitted_packages_append (evs evs' : List StreamEvent) :
    emitted_packages (evs ++ evs')
      = emitted_packages evs ++ emitted_packages evs' := by
  simp [emitted_packages, chunk_events_append]

theorem chunk_events_progress (p : StreamProgress) :
    chunk_events [StreamEvent.progress p] = [] := rfl

theorem chunk_events_complete (c : StreamComplete) :
    chunk_events [StreamEvent.complete c] = [] := rfl

theorem chunk_events_chunk (c : PackageChunk) :
    chunk_events [StreamEvent.chunk c] = [c] := rfl

end DebloatAI

namespace DebloatAI

/-! ## The streaming-loop invariant -/

theorem emitted_packages_two (c : PackageChunk) (p : StreamProgress) :
    emitted_packages [StreamEvent.chunk c, StreamEvent.progress p] = c.packages := by
  simp [emitted_packages, chunk_events]

theorem chunk_events_pair (c : PackageChunk) (p : StreamProgress) :
    chunk_events [StreamEvent.chunk c, StreamEvent.progress p] = [c] := rfl

theorem stream_step_inv (dn sl : String → String) (line : String) (st : LiveState)
    (h : LiveInv st) : LiveInv (stream_step dn sl st line) := by
  obtain ⟨h1, h2, h3, h4⟩ := h
  cases hp : parse_package_line line with
  | none =>
    simp only [stream_step, hp]
    exact ⟨h1, h2, h3, h4⟩
  | some package_name =>
    simp only [stream_step, hp]
    by_cases hlen :
        CHUNK_SIZE ≤ (st.chunk ++ [classify_package dn sl package_name]).length
    · rw [if_pos hlen]
      have hl : st.chunk.length + 1 = CHUNK_SIZE := by
        simp only [List.length_append, List.length_cons, List.length_nil] at hlen
        omega
      refine ⟨?_, ?_, ?_, ?_⟩
      · simp only [emitted_packages_append, emitted_packages_two, List.append_nil]
        rw [← List.append_assoc, h1]
      · simp [CHUNK_SIZE]
      · simp only [List.length_append, List.length_cons, List.length_nil]
        simp only [CHUNK_SIZE] at h3 hl ⊢
        omega
      · intro c hc
        rw [chunk_events_append, chunk_events_pair] at hc
        rcases List.mem_append.mp hc with hc | hc
        · exact h4 c hc
        · obtain rfl := List.mem_singleton.mp hc
          refine ⟨rfl, ?_⟩
          simp only [List.length_append, List.length_cons, List.length_nil]
          omega
    · rw [if_neg hlen]
      simp only [List.length_append, List.length_cons, List.length_nil] at hlen
      refine ⟨?_, ?_, ?_, ?_⟩
      · rw [← List.append_assoc, h1]
      · simp only [List.length_append, List.length_cons, List.length_nil]
        omega
      · simp only [List.length_append, List.length_cons, List.length_nil]
        simp only [CHUNK_SIZE] at h2 h3 hlen ⊢
        omega
      · exact h4

theorem foldl_stream_inv (dn sl : String → String) (lines : List String)
    (st : LiveState) (h : LiveInv st) :
    LiveInv (lines.foldl (stream_step dn sl) st) := by
  induction lines generalizing st with
  | nil => exact h
  | cons l ls ih => exact ih _ (stream_step_inv dn sl l st h)

theorem live_init_inv : LiveInv live_init := by
  refine ⟨rfl, ?_, rfl, ?_⟩
  · simp [live_init, CHUNK_SIZE]
  · intro c hc
    simp [live_init, live_start_event, chunk_events] at hc

theorem live_fold_inv (dn sl : String → String) (lines : List String) :
    LiveInv (live_fold dn sl lines) :=
  foldl_stream_inv dn sl lines live_init live_init_inv

theorem stream_step_all (dn sl : String → String) (l : String) (st : LiveState) :
    (stream_step dn sl st l).all_packages
      = st.all_packages ++
        ((parse_package_line l).map (classify_package dn sl)).toList := by
  cases hp : parse_package_line l with
  | none => simp [stream_step, hp]
  | some package_name =>
    simp only [stream_step, hp]
    by_cases hlen :
        CHUNK_SIZE ≤ (st.chunk ++ [classify_package dn sl package_name]).length
    · rw [if_pos hlen]
      simp
    · rw [if_neg hlen]
      simp

theorem foldl_stream_all (dn sl : String → String) (lines : List String)
    (st : LiveState) :
    (lines.foldl (stream_step dn sl) st).all_packages
      = st.all_packages ++ discovered dn sl lines := by
  induction lines generalizing st with
  | nil => simp [discovered]
  | cons l ls ih =>
    rw [List.foldl_cons, ih, stream_step_all]
    rw [List.append_assoc]
    congr 1
    simp only [discovered, List.filterMap_cons]
    cases hp : parse_package_line l <;> simp [hp]

theorem live_fold_all (dn sl : String → String) (lines : List String) :
    (live_fold dn sl lines).all_packages = discovered dn sl lines := by
  simpa [live_init] using foldl_stream_all dn sl lines live_init

end DebloatAI

namespace DebloatAI

/-! ## Characterization of the two live-pass outcomes -/

theorem stream_ok_spec (dn sl : String → String) (lines : List String) :
    stream_packages_from_adb dn sl true true lines true
      = { spawns := 2
          events :=
            (if (live_fold dn sl lines).chunk.isEmpty
              then (live_fold dn sl lines).events
              else (live_fold dn sl lines).events ++
                [StreamEvent.chunk
                  { packages := (live_fold dn sl lines).chunk
                    chunk_index := (live_fold dn sl lines).chunk_index
                    total_so_far := (live_fold dn sl lines).all_packages.length
                    is_final := true }]) ++
            [StreamEvent.complete
              { total_packages :=
                  (sort_packages (live_fold dn sl lines).all_packages).length
                duration_ms := 0
                from_cache := false },
             StreamEvent.progress
              { status := "Loaded " ++
                  toString (sort_packages (live_fold dn sl lines).all_packages).length
                  ++ " packages"
                packages_loaded :=
                  (sort_packages (live_fold dn sl lines).all_packages).length
                is_complete := true
                error := none }]
          result := Except.ok (sort_packages (live_fold dn sl lines).all_packages) } :=
  rfl

theorem stream_err_spec (dn sl : String → String) (lines : List String) :
    stream_packages_from_adb dn sl true true lines false
      = { spawns := 2
          events := (live_fold dn sl lines).events
          result := Except.error "ADB command failed" } :=
  rfl

end DebloatAI

namespace DebloatAI

theorem stream_ok_events (dn sl : String → String) (lines : List String) :
    (stream_packages_from_adb dn sl true true lines true).events
      = (if (live_fold dn sl lines).chunk.isEmpty
          then (live_fold dn sl lines).events
          else (live_fold dn sl lines).events ++
            [StreamEvent.chunk
              { packages := (live_fold dn sl lines).chunk
                chunk_index := (live_fold dn sl lines).chunk_index
                total_so_far := (live_fold dn sl lines).all_packages.length
                is_final := true }]) ++
        [StreamEvent.complete
          { total_packages :=
              (sort_packages (live_fold dn sl lines).all_packages).length
            duration_ms := 0
            from_cache := false },
         StreamEvent.progress
          { status := "Loaded " ++
              toString (sort_packages (live_fold dn sl lines).all_packages).length
              ++ " packages"
            packages_loaded :=
              (sort_packages (live_fold dn sl lines).all_packages).length
            is_complete := true
            error := none }] := rfl

theorem stream_ok_result (dn sl : String → String) (lines : List String) :
    (stream_packages_from_adb dn sl true true lines true).result
      = Except.ok (sort_packages (live_fold dn sl lines).all_packages) := rfl

theorem stream_err_events (dn sl : String → String) (lines : List String) :
    (stream_packages_from_adb dn sl true true lines false).events
      = (live_fold dn sl lines).events := rfl

theorem stream_err_result (dn sl : String → String) (lines : List String) :
    (stream_packages_from_adb dn sl true true lines false).result
      = Except.error "ADB command failed" := rfl

theorem chunk_events_tail (c : StreamComplete) (p : StreamProgress) :
    chunk_events [StreamEvent.complete c, StreamEvent.progress p] = [] := rfl

theorem emitted_packages_tail (c : StreamComplete) (p : StreamProgress) :
    emitted_packages [StreamEvent.complete c, StreamEvent.progress p] = [] := rfl

theorem emitted_packages_chunk (c : PackageChunk) :
    emitted_packages [StreamEvent.chunk c] = c.packages := by
  simp [emitted_packages, chunk_events]

/-- The packages emitted by a completing live pass are exactly the discovered
packages, in discovery order. -/
theorem live_emitted (dn sl : String → String) (lines : List String) :
    emitted_packages (stream_packages_from_adb dn sl true true lines true).events
      = discovered dn sl lines := by
  obtain ⟨h1, _, _, _⟩ := live_fold_inv dn sl lines
  rw [← live_fold_all dn sl lines, stream_ok_events, emitted_packages_append,
    emitted_packages_tail, List.append_nil]
  by_cases hc : (live_fold dn sl lines).chunk.isEmpty
  · rw [if_pos hc]
    have hnil : (live_fold dn sl lines).chunk = [] := by
      simpa using hc
    rw [← h1, hnil, List.append_nil]
  · rw [if_neg hc, emitted_packages_append, emitted_packages_chunk]
    exact h1

/-! ## Replay-path observations -/

theorem chunk_events_replay (pkgs : List StreamedPackage) :
    chunk_events (replay_events pkgs)
      = (chunks CHUNK_SIZE pkgs).enum.map (fun ic =>
          { packages := ic.2
            chunk_index := ic.1
            total_so_far := min ((ic.1 + 1) * CHUNK_SIZE) pkgs.length
            is_final := decide (pkgs.length ≤ (ic.1 + 1) * CHUNK_SIZE) }) := by
  simp only [replay_events, chunk_events, List.filterMap_append,
    List.filterMap_map, List.filterMap_cons, List.filterMap_nil,
    List.append_nil, List.nil_append, Function.comp_def]
  exact congrFun (List.filterMap_eq_map _) _

/-- A cached replay emits exactly the cached packages, in cache order. -/
theorem replay_emitted (pkgs : List StreamedPackage) :
    emitted_packages (replay_events pkgs) = pkgs := by
  have h : (((chunks CHUNK_SIZE pkgs).enum.map (fun ic =>
        ({ packages := ic.2
           chunk_index := ic.1
           total_so_far := min ((ic.1 + 1) * CHUNK_SIZE) pkgs.length
           is_final := decide (pkgs.length ≤ (ic.1 + 1) * CHUNK_SIZE) } :
          PackageChunk))).map PackageChunk.packages)
      = (chunks CHUNK_SIZE pkgs).enum.map Prod.snd := by
    rw [List.map_map]
    rfl
  rw [emitted_packages, chunk_events_replay, h, List.enum_map_snd]
  exact chunks_flatten CHUNK_SIZE (by simp [CHUNK_SIZE]) pkgs

end DebloatAI

namespace DebloatAI

/-! ## Shared chunk-bound lemmas -/

theorem live_chunk_bounds (dn sl : String → String) (lines : List String)
    (exit_ok : Bool) :
    ∀ c ∈ chunk_events
        (stream_packages_from_adb dn sl true true lines exit_ok).events,
      c.packages ≠ [] ∧ c.packages.length ≤ CHUNK_SIZE ∧
        (c.is_final = false → c.packages.length = CHUNK_SIZE) := by
  obtain ⟨h1, h2, h3, h4⟩ := live_fold_inv dn sl lines
  have hfull : ∀ c ∈ chunk_events (live_fold dn sl lines).events,
      c.packages ≠ [] ∧ c.packages.length ≤ CHUNK_SIZE ∧
        (c.is_final = false → c.packages.length = CHUNK_SIZE) := by
    intro c hc
    obtain ⟨hf, hl⟩ := h4 c hc
    refine ⟨?_, hl.le, fun _ => hl⟩
    intro hnil
    rw [hnil] at hl
    simp [CHUNK_SIZE] at hl
  cases exit_ok with
  | false =>
    rw [stream_err_events]
    exact hfull
  | true =>
    rw [stream_ok_events]
    by_cases hc : (live_fold dn sl lines).chunk.isEmpty
    · rw [if_pos hc, chunk_events_append, chunk_events_tail, List.append_nil]
      exact hfull
    · rw [if_neg hc, chunk_events_append, chunk_events_append, chunk_events_tail,
        List.append_nil, chunk_events_chunk]
      intro c hcm
      rcases List.mem_append.mp hcm with hcm | hcm
      · exact hfull c hcm
      · obtain rfl := List.mem_singleton.mp hcm
        refine ⟨?_, h2.le, ?_⟩
        · intro hnil
          have hnil' : (live_fold dn sl lines).chunk = [] := hnil
          exact hc (by simp [hnil'])
        · intro hfalse
          exact absurd hfalse (by simp)

theorem replay_chunk_bounds (pkgs : List StreamedPackage) :
    ∀ c ∈ chunk_events (replay_events pkgs),
      c.packages ≠ [] ∧ c.packages.length ≤ CHUNK_SIZE := by
  intro c hcm
  rw [chunk_events_replay] at hcm
  obtain ⟨ic, hic, rfl⟩ := List.mem_map.mp hcm
  have hmem : ic.2 ∈ chunks CHUNK_SIZE pkgs := by
    have h := List.enum_map_snd (chunks CHUNK_SIZE pkgs)
    exact h ▸ List.mem_map_of_mem Prod.snd hic
  exact chunks_mem CHUNK_SIZE (by simp [CHUNK_SIZE]) pkgs ic.2 hmem

end DebloatAI

namespace DebloatAI

/-! ## Claim C1 -/

set_option maxRecDepth 400000 in
/-- C1, counterexample: on a successfully completing pass whose package count
is exactly 30 (a multiple of the batch size), the pass succeeds yet NO emitted
batch is marked terminal — the claimed "exactly one terminal trailing batch
for every package count" fails at this input, because the terminal batch is
emitted only when a partial chunk remains. -/
theorem C1_counterexample :
    (stream_packages_from_adb dn0 sl0 true true (sample_lines 30) true).result.toOption.isSome
      = true ∧
    final_chunk_count
      (stream_packages_from_adb dn0 sl0 true true (sample_lines 30) true).events
      = 0 := by
  decide

/-- C1, amended: on a successfully completing live pass, when the package
count is not a multiple of 30 exactly one emitted batch is terminal and it is
the trailing one; when the count is a multiple of 30 (zero included) no
emitted batch is marked terminal. -/
theorem C1_terminal_batch (dn sl : String → String) (lines : List String) :
    ((discovered dn sl lines).length % CHUNK_SIZE ≠ 0 →
      ∃ cs c,
        chunk_events (stream_packages_from_adb dn sl true true lines true).events
          = cs ++ [c] ∧ c.is_final = true ∧ ∀ x ∈ cs, x.is_final = false) ∧
    ((discovered dn sl lines).length % CHUNK_SIZE = 0 →
      ∀ x ∈ chunk_events
          (stream_packages_from_adb dn sl true true lines true).events,
        x.is_final = false) := by
  obtain ⟨h1, h2, h3, h4⟩ := live_fold_inv dn sl lines
  have hmod : (discovered dn sl lines).length % CHUNK_SIZE
      = (live_fold dn sl lines).chunk.length := by
    rw [← live_fold_all dn sl lines]
    exact h3
  rw [stream_ok_events]
  constructor
  · intro hne
    rw [hmod] at hne
    have hc : ¬ (live_fold dn sl lines).chunk.isEmpty = true := by
      cases hcc : (live_fold dn sl lines).chunk
      · simp [hcc] at hne
      · simp [hcc]
    rw [if_neg hc, chunk_events_append, chunk_events_append, chunk_events_tail,
      List.append_nil, chunk_events_chunk]
    exact ⟨chunk_events (live_fold dn sl lines).events, _, rfl, rfl,
      fun x hx => (h4 x hx).1⟩
  · intro hz
    rw [hmod] at hz
    have hc : (live_fold dn sl lines).chunk.isEmpty = true := by
      cases hcc : (live_fold dn sl lines).chunk
      · simp
      · simp [hcc] at hz
    rw [if_pos hc, chunk_events_append, chunk_events_tail, List.append_nil]
    exact fun x hx => (h4 x hx).1

set_option maxRecDepth 400000 in
/-- C1, witness: a 31-package pass has exactly one terminal batch and it is
the trailing one. -/
theorem C1_terminal_batch_witness :
    ∃ cs c,
      chunk_events
          (stream_packages_from_adb dn0 sl0 true true (sample_lines 31) true).events
        = cs ++ [c] ∧ c.is_final = true ∧ ∀ x ∈ cs, x.is_final = false :=
  (C1_terminal_batch dn0 sl0 (sample_lines 31)).1 (by decide)

/-! ## Claim C10 -/

/-- C10: every emitted chunk event — live pass or cache replay — carries a
non-empty list of at most 30 packages, and in a live pass every non-terminal
chunk carries exactly 30. -/
theorem C10_chunk_size_bounds (dn sl : String → String) (lines : List String)
    (exit_ok : Bool) (pkgs : List StreamedPackage) :
    (∀ c ∈ chunk_events
        (stream_packages_from_adb dn sl true true lines exit_ok).events,
      c.packages ≠ [] ∧ c.packages.length ≤ CHUNK_SIZE ∧
        (c.is_final = false → c.packages.length = CHUNK_SIZE)) ∧
    (∀ c ∈ chunk_events (replay_events pkgs),
      c.packages ≠ [] ∧ c.packages.length ≤ CHUNK_SIZE) :=
  ⟨live_chunk_bounds dn sl lines exit_ok, replay_chunk_bounds pkgs⟩

set_option maxRecDepth 400000 in
/-- C10, witness: the bounds evaluated on the terminal chunk of a one-package
live pass and on the single chunk of a one-package cache replay. -/
theorem C10_chunk_size_bounds_witness :
    (c10_live_chunk.packages ≠ [] ∧ c10_live_chunk.packages.length ≤ CHUNK_SIZE ∧
      (c10_live_chunk.is_final = false →
        c10_live_chunk.packages.length = CHUNK_SIZE)) ∧
    (c10_replay_chunk.packages ≠ [] ∧
      c10_replay_chunk.packages.length ≤ CHUNK_SIZE) :=
  ⟨(C10_chunk_size_bounds dn0 sl0 (sample_lines 1) true [sample_pkg]).1
      c10_live_chunk (by decide),
   (C10_chunk_size_bounds dn0 sl0 (sample_lines 1) true [sample_pkg]).2
      c10_replay_chunk (by decide)⟩

end DebloatAI

namespace DebloatAI

/-! ## Claim C4 -/

/-- C4: on every successfully completing enumeration pass, the packages of
all emitted batches taken together coincide, as a set, with the list written
to the package cache; the cached list is sorted lexicographically by package
identifier while the batches carry the packages in discovery order. -/
theorem C4_batches_match_cache (dn sl : String → String) (w : StartWorld)
    (cache : Option CachedPackages) (n : Nat) (serial : String)
    (hser : get_device_serial_async w.serial = (n, Except.ok serial))
    (hadb : w.enum_adb_found = true) (hspawn : w.spawn_ok = true)
    (hexit : w.pm_exit_ok = true) :
    ∃ entry, (start_package_stream dn sl w true cache).new_cache = some entry ∧
      entry.device_serial = serial ∧
      (∀ p, p ∈ emitted_packages (start_package_stream dn sl w true cache).events
        ↔ p ∈ entry.packages) ∧
      List.Sorted pkg_le entry.packages ∧
      emitted_packages (start_package_stream dn sl w true cache).events
        = discovered dn sl w.pm_lines := by
  have hstart : start_package_stream dn sl w true cache
      = live_branch dn sl w cache serial n := by
    cases cache with
    | none => simp [start_package_stream, hser]
    | some cached => simp [start_package_stream, hser]
  have hlive : live_branch dn sl w cache serial n
      = { serial_spawns := n
          stream_spawns := 2
          events := (stream_packages_from_adb dn sl true true w.pm_lines true).events
          new_cache := some
            { packages := sort_packages (live_fold dn sl w.pm_lines).all_packages
              timestamp := w.now
              device_serial := serial }
          ret := Except.ok () } := by
    simp only [live_branch, hadb, hspawn, hexit, stream_ok_result]
    rfl
  rw [hstart, hlive]
  refine ⟨_, rfl, rfl, ?_, ?_, ?_⟩
  · intro p
    show p ∈ emitted_packages
        (stream_packages_from_adb dn sl true true w.pm_lines true).events
      ↔ p ∈ sort_packages (live_fold dn sl w.pm_lines).all_packages
    rw [live_emitted, live_fold_all]
    exact ((sort_packages_perm (discovered dn sl w.pm_lines)).mem_iff).symm
  · exact sort_packages_sorted _
  · exact live_emitted dn sl w.pm_lines

/-- C4, witness: the property evaluated on a two-package pass against the
sample device world. -/
theorem C4_batches_match_cache_witness :
    ∃ entry, (start_package_stream dn0 sl0 c2_world true none).new_cache
        = some entry ∧
      entry.device_serial = "ABC123" ∧
      (∀ p, p ∈ emitted_packages
          (start_package_stream dn0 sl0 c2_world true none).events
        ↔ p ∈ entry.packages) ∧
      List.Sorted pkg_le entry.packages ∧
      emitted_packages (start_package_stream dn0 sl0 c2_world true none).events
        = discovered dn0 sl0 c2_world.pm_lines :=
  C4_batches_match_cache dn0 sl0 c2_world none 2 "ABC123" rfl rfl rfl rfl

/-! ## Claim C9 -/

/-- C9: when the listing subprocess of a live pass exits non-zero after
streaming began, the enumeration task emits a trailing error progress event
(complete, with a non-empty error text) and leaves the package cache
untouched. -/
theorem C9_error_event_no_cache_write (dn sl : String → String) (w : StartWorld)
    (cache : Option CachedPackages) (device_serial : String) (ns : Nat)
    (hadb : w.enum_adb_found = true) (hspawn : w.spawn_ok = true)
    (hexit : w.pm_exit_ok = false) :
    (live_branch dn sl w cache device_serial ns).new_cache = cache ∧
    (live_branch dn sl w cache device_serial ns).events.getLast?
      = some (StreamEvent.progress
          { status := "Error loading packages"
            packages_loaded := 0
            is_complete := true
            error := some "ADB command failed" }) ∧
    ("ADB command failed" : String) ≠ "" := by
  have hlive : live_branch dn sl w cache device_serial ns
      = { serial_spawns := ns
          stream_spawns := 2
          events := (live_fold dn sl w.pm_lines).events ++
            [StreamEvent.progress
              { status := "Error loading packages"
                packages_loaded := 0
                is_complete := true
                error := some "ADB command failed" }]
          new_cache := cache
          ret := Except.ok () } := by
    simp only [live_branch, hadb, hspawn, hexit, stream_err_result,
      stream_err_events]
    rfl
  rw [hlive]
  exact ⟨rfl, List.getLast?_concat _, by decide⟩

/-- C9, witness: the property evaluated on a failing pass for the sample
device world. -/
theorem C9_error_event_no_cache_write_witness :
    (live_branch dn0 sl0 c9_world none "ABC123" 2).new_cache = none ∧
    (live_branch dn0 sl0 c9_world none "ABC123" 2).events.getLast?
      = some (StreamEvent.progress
          { status := "Error loading packages"
            packages_loaded := 0
            is_complete := true
            error := some "ADB command failed" }) ∧
    ("ADB command failed" : String) ≠ "" :=
  C9_error_event_no_cache_write dn0 sl0 c9_world none "ABC123" 2 rfl rfl rfl

end DebloatAI

namespace DebloatAI

/-! ## Claim C2 -/

/-- C2, counterexample: a second `start_package_stream` call with a fresh
matching cache entry does replay the cache (the `from_cache` completion event
is emitted), yet it does not spawn zero subprocesses — the device-serial
lookup still runs the adb probe and `adb devices -l`, two spawn attempts. -/
theorem C2_counterexample :
    (StreamEvent.complete
        { total_packages := 1, duration_ms := 0, from_cache := true })
      ∈ (start_package_stream dn0 sl0 c2_world false (some sample_cache_entry)).events ∧
    (start_package_stream dn0 sl0 c2_world false (some sample_cache_entry)).serial_spawns
      + (start_package_stream dn0 sl0 c2_world false (some sample_cache_entry)).stream_spawns
      ≠ 0 := by
  decide

/-- C2, amended: a second call within 300 s of the cache write for the same
serial with `force_refresh` off spawns no enumeration subprocess (though the
device-serial lookup still spawns), replays the cached list in batches of at
most 30 (their concatenation being exactly the cached list), emits a
completion event tagged `from_cache := true`, leaves the cache unchanged, and
returns ok. -/
theorem C2_cached_replay (dn sl : String → String) (w : StartWorld)
    (cached : CachedPackages) (n : Nat)
    (hser : get_device_serial_async w.serial = (n, Except.ok cached.device_serial))
    (hfresh : w.now - cached.timestamp < (CACHE_DURATION_SECS : Int)) :
    (start_package_stream dn sl w false (some cached)).stream_spawns = 0 ∧
    (start_package_stream dn sl w false (some cached)).events
      = replay_events cached.packages ∧
    emitted_packages (start_package_stream dn sl w false (some cached)).events
      = cached.packages ∧
    (∀ c ∈ chunk_events (start_package_stream dn sl w false (some cached)).events,
      c.packages ≠ [] ∧ c.packages.length ≤ CHUNK_SIZE) ∧
    (StreamEvent.complete
        { total_packages := cached.packages.length, duration_ms := 0,
          from_cache := true })
      ∈ (start_package_stream dn sl w false (some cached)).events ∧
    (start_package_stream dn sl w false (some cached)).new_cache = some cached ∧
    (start_package_stream dn sl w false (some cached)).ret = Except.ok () := by
  have hstart : start_package_stream dn sl w false (some cached)
      = { serial_spawns := n
          stream_spawns := 0
          events := replay_events cached.packages
          new_cache := some cached
          ret := Except.ok () } := by
    simp [start_package_stream, hser, decide_eq_true hfresh]
  rw [hstart]
  refine ⟨rfl, rfl, replay_emitted _, replay_chunk_bounds _, ?_, rfl, rfl⟩
  show StreamEvent.complete _ ∈ replay_events cached.packages
  simp [replay_events]

/-- C2, witness: the amended property evaluated on a fresh one-package cache
entry for the sample device. -/
theorem C2_cached_replay_witness :
    (start_package_stream dn0 sl0 c2_world false (some sample_cache_entry)).stream_spawns
      = 0 ∧
    (start_package_stream dn0 sl0 c2_world false (some sample_cache_entry)).events
      = replay_events sample_cache_entry.packages ∧
    emitted_packages
        (start_package_stream dn0 sl0 c2_world false (some sample_cache_entry)).events
      = sample_cache_entry.packages ∧
    (∀ c ∈ chunk_events
        (start_package_stream dn0 sl0 c2_world false (some sample_cache_entry)).events,
      c.packages ≠ [] ∧ c.packages.length ≤ CHUNK_SIZE) ∧
    (StreamEvent.complete
        { total_packages := sample_cache_entry.packages.length, duration_ms := 0,
          from_cache := true })
      ∈ (start_package_stream dn0 sl0 c2_world false (some sample_cache_entry)).events ∧
    (start_package_stream dn0 sl0 c2_world false (some sample_cache_entry)).new_cache
      = some sample_cache_entry ∧
    (start_package_stream dn0 sl0 c2_world false (some sample_cache_entry)).ret
      = Except.ok () :=
  C2_cached_replay dn0 sl0 c2_world sample_cache_entry 2 rfl (by decide)

end DebloatAI

namespace DebloatAI

/-! ## Claim C3 -/

/-- C3, counterexample: a stderr holding both the offline and the
unauthorized patterns classifies as `DeviceOffline` (the higher-priority
pattern), not `DeviceUnauthorized` — so "exactly DeviceUnauthorized regardless
of what other text stderr contains" fails at this input. -/
theorem C3_counterexample :
    contains_sub (rust_trim c3_world.stderr) "device unauthorized" = true ∧
    (execute_adb_command c3_world).2 = Except.error AdbError.DeviceOffline ∧
    AdbError.DeviceOffline ≠ AdbError.DeviceUnauthorized := by
  refine ⟨by decide, by decide, by decide⟩

/-- C3, amended: when a command exits non-zero with a stderr whose trimmed
text holds "device unauthorized", the classified error is never the generic
`CommandFailed`; and when the stderr holds none of the higher-priority
patterns ("no devices/emulators found", "device not found", "device offline")
the error is exactly `DeviceUnauthorized`. -/
theorem C3_unauthorized_classification (w : ExecWorld)
    (hadb : w.adb_found = true) (hspawn : w.spawn_ok = true)
    (hexit : w.exit_ok = false)
    (hua : contains_sub (rust_trim w.stderr) "device unauthorized" = true) :
    (∀ msg, (execute_adb_command w).2
      ≠ Except.error (AdbError.CommandFailed msg)) ∧
    (contains_sub (rust_trim w.stderr) "no devices/emulators found" = false →
      contains_sub (rust_trim w.stderr) "device not found" = false →
      contains_sub (rust_trim w.stderr) "device offline" = false →
      (execute_adb_command w).2 = Except.error AdbError.DeviceUnauthorized) := by
  have hexec : (execute_adb_command w).2
      = Except.error (classify_stderr (rust_trim w.stderr)) := by
    simp [execute_adb_command, hadb, hspawn, hexit]
  rw [hexec]
  constructor
  · intro msg
    unfold classify_stderr
    by_cases h1 : (contains_sub (rust_trim w.stderr) "no devices/emulators found"
        || contains_sub (rust_trim w.stderr) "device not found") = true
    · simp [h1]
    · by_cases h3 : contains_sub (rust_trim w.stderr) "device offline" = true
      · simp [h1, h3]
      · simp [h1, h3, hua]
  · intro h1 h2 h3
    unfold classify_stderr
    rw [if_neg (by simp [h1, h2]), if_neg (by simp [h3]), if_pos hua]

/-- C3, witness: the amended property evaluated on a stderr holding only the
unauthorized pattern. -/
theorem C3_unauthorized_classification_witness :
    (∀ msg, (execute_adb_command c3_plain_world).2
      ≠ Except.error (AdbError.CommandFailed msg)) ∧
    (contains_sub (rust_trim c3_plain_world.stderr) "no devices/emulators found"
        = false →
      contains_sub (rust_trim c3_plain_world.stderr) "device not found" = false →
      contains_sub (rust_trim c3_plain_world.stderr) "device offline" = false →
      (execute_adb_command c3_plain_world).2
        = Except.error AdbError.DeviceUnauthorized) :=
  C3_unauthorized_classification c3_plain_world rfl rfl rfl (by decide)

/-! ## Claim C5 -/

theorem execute_spawns_le_one (w : ExecWorld) :
    (execute_adb_command w).1 ≤ 1 := by
  rcases w with ⟨af, so, eo, out, err⟩
  cases af <;> cases so <;> cases eo <;> simp [execute_adb_command]

theorem get_devices_spawns_le_one (w : ExecWorld) (force_refresh : Bool)
    (cache : DeviceCache) (now : Int) :
    (get_devices w force_refresh cache now).spawns ≤ 1 := by
  simp only [get_devices]
  split
  · exact Nat.zero_le 1
  · have hex := execute_spawns_le_one w
    rcases hw : execute_adb_command w with ⟨m, r⟩
    rw [hw] at hex
    cases r <;> simpa using hex

/-- C5: two consecutive `get_devices(false)` calls where the second falls
inside the 5 s TTL of the cache left by the first issue at most one
subprocess spawn in total: the second call spawns nothing and returns the
cached list unchanged, leaving the cache as it was. -/
theorem C5_ttl_idempotent (w1 w2 : ExecWorld) (cache : DeviceCache)
    (now1 now2 : Int)
    (hfresh : ((get_devices w1 false cache now1).new_cache.is_expired now2)
      = false) :
    (get_devices w2 false (get_devices w1 false cache now1).new_cache now2).spawns
      = 0 ∧
    (get_devices w1 false cache now1).spawns
      + (get_devices w2 false (get_devices w1 false cache now1).new_cache now2).spawns
      ≤ 1 ∧
    (get_devices w2 false (get_devices w1 false cache now1).new_cache now2).result
      = Except.ok (get_devices w1 false cache now1).new_cache.devices ∧
    (get_devices w2 false (get_devices w1 false cache now1).new_cache now2).new_cache
      = (get_devices w1 false cache now1).new_cache := by
  have h2 : ∀ c1 : DeviceCache, c1.is_expired now2 = false →
      get_devices w2 false c1 now2
        = { spawns := 0
            result := Except.ok c1.devices
            new_cache := c1 } := by
    intro c1 hc1
    simp [get_devices, hc1]
  rw [h2 _ hfresh]
  refine ⟨rfl, ?_, rfl, rfl⟩
  simpa using get_devices_spawns_le_one w1 false cache now1

/-- C5, witness: the property evaluated on a fresh fetch at instant 1
followed by a call at instant 3. -/
theorem C5_ttl_idempotent_witness :
    (get_devices sample_exec_world false
        (get_devices sample_exec_world false (DeviceCache.new 0) 1).new_cache 3).spawns
      = 0 ∧
    (get_devices sample_exec_world false (DeviceCache.new 0) 1).spawns
      + (get_devices sample_exec_world false
          (get_devices sample_exec_world false (DeviceCache.new 0) 1).new_cache 3).spawns
      ≤ 1 ∧
    (get_devices sample_exec_world false
        (get_devices sample_exec_world false (DeviceCache.new 0) 1).new_cache 3).result
      = Except.ok
          (get_devices sample_exec_world false (DeviceCache.new 0) 1).new_cache.devices ∧
    (get_devices sample_exec_world false
        (get_devices sample_exec_world false (DeviceCache.new 0) 1).new_cache 3).new_cache
      = (get_devices sample_exec_world false (DeviceCache.new 0) 1).new_cache :=
  C5_ttl_idempotent sample_exec_world sample_exec_world (DeviceCache.new 0) 1 3
    (by decide)

/-! ## Claim C6 -/

/-- C6: every device served by the registry — fresh or cached (granted a
cache whose entries all parsed with state `device`, which every registry
write establishes) — has state `device`; parsed `offline` or `unauthorized`
entries never appear. -/
theorem C6_only_ready_devices (w : ExecWorld) (force_refresh : Bool)
    (cache : DeviceCache) (now : Int)
    (hcache : ∀ d ∈ cache.devices, d.state = "device") :
    (∀ d ∈ ok_devices (get_devices w force_refresh cache now).result,
      d.state = "device") ∧
    (∀ d ∈ (get_devices w force_refresh cache now).new_cache.devices,
      d.state = "device") := by
  simp only [get_devices]
  split
  · exact ⟨hcache, hcache⟩
  · rcases hw : execute_adb_command w with ⟨m, r⟩
    cases r with
    | error e =>
      refine ⟨?_, hcache⟩
      intro d hd
      simp [ok_devices] at hd
    | ok output =>
      have hf : ∀ d ∈ (parse_adb_devices output).filter
          (fun d => d.state == "device"), d.state = "device" := by
        intro d hd
        have := List.of_mem_filter hd
        simpa using this
      exact ⟨hf, hf⟩

/-- C6, witness: the property evaluated on the sample listing, which parses
one ready and one offline device. -/
theorem C6_only_ready_devices_witness :
    (∀ d ∈ ok_devices
        (get_devices sample_exec_world true (DeviceCache.new 0) 1).result,
      d.state = "device") ∧
    (∀ d ∈ (get_devices sample_exec_world true (DeviceCache.new 0) 1).new_cache.devices,
      d.state = "device") :=
  C6_only_ready_devices sample_exec_world true (DeviceCache.new 0) 1 (by decide)

end DebloatAI

namespace DebloatAI

/-! ## Health-cache lemmas -/

theorem CachedMetric.new_is_stale (T : Type) [Inhabited T] (now : Int) (t : Nat) :
    (CachedMetric.new T now t).is_stale now = true := by
  simp only [CachedMetric.new, CachedMetric.is_stale, decide_eq_true_eq]
  omega

theorem step_metric_none {T : Type} (m : CachedMetric T) (nm : String)
    (u : List String) (now : Int) :
    step_metric m none nm u now = { slot := m, updated := u, value := m.get } := by
  unfold step_metric
  split <;> rfl

theorem step_metric_new {T : Type} [Inhabited T] (now : Int) (t : Nat)
    (f : Option T) (nm : String) (u : List String) :
    step_metric (CachedMetric.new T now t) f nm u now
      = (match f with
         | some v =>
           { slot := (CachedMetric.new T now t).update v now
             updated := u ++ [nm]
             value := v }
         | none =>
           { slot := CachedMetric.new T now t
             updated := u
             value := default }) := by
  unfold step_metric
  rw [if_pos (CachedMetric.new_is_stale T now t)]
  cases f <;> rfl

theorem step_metric_updated_mem {T : Type} (m : CachedMetric T) (f : Option T)
    (nm : String) (u : List String) (now : Int) (x : String)
    (hx : x ∈ (step_metric m f nm u now).updated) :
    x ∈ u ∨ (x = nm ∧ f.isSome = true) := by
  unfold step_metric at hx
  split at hx
  · cases f with
    | none => exact Or.inl hx
    | some v =>
      simp only [List.mem_append, List.mem_singleton] at hx
      rcases hx with hx | rfl
      · exact Or.inl hx
      · exact Or.inr ⟨rfl, rfl⟩
  · exact Or.inl hx

/-- Every name in the updated-metrics list of any event of a pass is the name
of a metric whose fetch succeeded this pass. -/
theorem collect_updated_chars {S M C B T A : Type}
    [Inhabited S] [Inhabited M] [Inhabited C] [Inhabited T] [Inhabited A]
    (w : HealthWorld S M C B T A) (cache0 : HealthCache S M C B T A) :
    ∀ e ∈ (collect_system_health w cache0).events, ∀ x ∈ e.metrics_updated,
      (x = "storage" ∧ w.fetch_storage.isSome = true) ∨
      (x = "memory" ∧ w.fetch_memory.isSome = true) ∨
      (x = "cpu" ∧ w.fetch_cpu.isSome = true) ∨
      (x = "services" ∧ w.fetch_services.isSome = true) ∨
      (x = "app_counts" ∧ w.fetch_app_counts.isSome = true) ∨
      (x = "thermal" ∧ w.fetch_thermal.isSome = true) ∨
      (x = "battery" ∧ w.fetch_battery.isSome = true) := by
  intro e he x hx
  simp only [collect_system_health, List.mem_cons, List.not_mem_nil,
    or_false] at he
  rcases he with rfl | rfl | rfl | rfl
  · simp only [] at hx
    rcases step_metric_updated_mem _ _ _ _ _ _ hx with hx | ⟨rfl, hs⟩
    · simp at hx
    all_goals simp [hs]
  · simp only [] at hx
    rcases step_metric_updated_mem _ _ _ _ _ _ hx with hx | ⟨rfl, hs⟩
    rcases step_metric_updated_mem _ _ _ _ _ _ hx with hx | ⟨rfl, hs⟩
    · simp at hx
    all_goals simp [hs]
  · simp only [] at hx
    rcases step_metric_updated_mem _ _ _ _ _ _ hx with hx | ⟨rfl, hs⟩
    rcases step_metric_updated_mem _ _ _ _ _ _ hx with hx | ⟨rfl, hs⟩
    rcases step_metric_updated_mem _ _ _ _ _ _ hx with hx | ⟨rfl, hs⟩
    rcases step_metric_updated_mem _ _ _ _ _ _ hx with hx | ⟨rfl, hs⟩
    · simp at hx
    all_goals simp [hs]
  · simp only [] at hx
    rcases step_metric_updated_mem _ _ _ _ _ _ hx with hx | ⟨rfl, hs⟩
    rcases step_metric_updated_mem _ _ _ _ _ _ hx with hx | ⟨rfl, hs⟩
    rcases step_metric_updated_mem _ _ _ _ _ _ hx with hx | ⟨rfl, hs⟩
    rcases step_metric_updated_mem _ _ _ _ _ _ hx with hx | ⟨rfl, hs⟩
    rcases step_metric_updated_mem _ _ _ _ _ _ hx with hx | ⟨rfl, hs⟩
    rcases step_metric_updated_mem _ _ _ _ _ _ hx with hx | ⟨rfl, hs⟩
    rcases step_metric_updated_mem _ _ _ _ _ _ hx with hx | ⟨rfl, hs⟩
    · simp at hx
    all_goals simp [hs]

end DebloatAI

namespace DebloatAI

/-! ## Claim C7 -/

/-- C7: when the observed device identity differs from the cache owner, the
pass resets all seven per-metric caches to their stale initial state before
reading any of them, so every metric in the outgoing snapshot is either the
value fetched from the new device this pass or the payload default — never a
value cached from the previous device. -/
theorem C7_device_change_no_leak {S M C B T A : Type}
    [Inhabited S] [Inhabited M] [Inhabited C] [Inhabited T] [Inhabited A]
    (w : HealthWorld S M C B T A) (cache0 : HealthCache S M C B T A)
    (hne : observed_device_id w ≠ cache0.device_id) :
    cache0.invalidate_for_device (observed_device_id w) w.now
      = { (HealthCache.new w.now : HealthCache S M C B T A) with
          device_id := observed_device_id w } ∧
    (collect_system_health w cache0).health.storage
      = (match w.fetch_storage with | some v => v | none => default) ∧
    (collect_system_health w cache0).health.memory
      = (match w.fetch_memory with | some v => v | none => default) ∧
    (collect_system_health w cache0).health.cpu
      = (match w.fetch_cpu with | some v => v | none => default) ∧
    (collect_system_health w cache0).health.services_count
      = (match w.fetch_services with | some v => v | none => default) ∧
    (collect_system_health w cache0).health.app_counts
      = (match w.fetch_app_counts with | some v => v | none => default) ∧
    (collect_system_health w cache0).health.thermal
      = (match w.fetch_thermal with | some v => v | none => default) ∧
    (collect_system_health w cache0).health.battery_drainers
      = (match w.fetch_battery with | some v => v | none => default) ∧
    (collect_system_health w cache0).new_cache.device_id
      = observed_device_id w := by
  have hinv : cache0.invalidate_for_device (observed_device_id w) w.now
      = { (HealthCache.new w.now : HealthCache S M C B T A) with
          device_id := observed_device_id w } := by
    unfold HealthCache.invalidate_for_device
    rw [if_neg (fun h => hne h.symm)]
  refine ⟨hinv, ?_, ?_, ?_, ?_, ?_, ?_, ?_, ?_⟩
  · simp only [collect_system_health, hinv, HealthCache.new, step_metric_new]
    cases hf : w.fetch_storage <;> simp [hf]
  · simp only [collect_system_health, hinv, HealthCache.new, step_metric_new]
    cases hf : w.fetch_memory <;> simp [hf]
  · simp only [collect_system_health, hinv, HealthCache.new, step_metric_new]
    cases hf : w.fetch_cpu <;> simp [hf]
  · simp only [collect_system_health, hinv, HealthCache.new, step_metric_new]
    cases hf : w.fetch_services <;> simp [hf]
  · simp only [collect_system_health, hinv, HealthCache.new, step_metric_new]
    cases hf : w.fetch_app_counts <;> simp [hf]
  · simp only [collect_system_health, hinv, HealthCache.new, step_metric_new]
    cases hf : w.fetch_thermal <;> simp [hf]
  · simp only [collect_system_health, hinv, HealthCache.new, step_metric_new]
    cases hf : w.fetch_battery <;> simp [hf]
  · simp only [collect_system_health, hinv]

/-- C7, witness: the property evaluated over `Nat` payloads for a cache owned
by device `OLD` and a pass observing device `ABC123`. -/
theorem C7_device_change_no_leak_witness :
    c8_cache.invalidate_for_device (observed_device_id c8_world) c8_world.now
      = { (HealthCache.new c8_world.now : HealthCache Nat Nat Nat Nat Nat Nat) with
          device_id := observed_device_id c8_world } ∧
    (collect_system_health c8_world c8_cache).health.storage
      = (match c8_world.fetch_storage with | some v => v | none => default) ∧
    (collect_system_health c8_world c8_cache).health.memory
      = (match c8_world.fetch_memory with | some v => v | none => default) ∧
    (collect_system_health c8_world c8_cache).health.cpu
      = (match c8_world.fetch_cpu with | some v => v | none => default) ∧
    (collect_system_health c8_world c8_cache).health.services_count
      = (match c8_world.fetch_services with | some v => v | none => default) ∧
    (collect_system_health c8_world c8_cache).health.app_counts
      = (match c8_world.fetch_app_counts with | some v => v | none => default) ∧
    (collect_system_health c8_world c8_cache).health.thermal
      = (match c8_world.fetch_thermal with | some v => v | none => default) ∧
    (collect_system_health c8_world c8_cache).health.battery_drainers
      = (match c8_world.fetch_battery with | some v => v | none => default) ∧
    (collect_system_health c8_world c8_cache).new_cache.device_id
      = observed_device_id c8_world :=
  C7_device_change_no_leak c8_world c8_cache (by decide)

/-! ## Claim C8 -/

/-- C8: the collection pass always returns a snapshot, and for every
sub-metric whose fetch fails this pass, the cache slot the pass reads (after
any device-change invalidation) is left in place, its value is the one copied
into the outgoing snapshot, and the metric's name appears in no emitted
event's updated-metrics list. -/
theorem C8_failed_fetch_isolated {S M C B T A : Type}
    [Inhabited S] [Inhabited M] [Inhabited C] [Inhabited T] [Inhabited A]
    (w : HealthWorld S M C B T A) (cache0 : HealthCache S M C B T A) :
    (∃ h, get_system_health w cache0 = Except.ok h) ∧
    (w.fetch_storage = none →
      (collect_system_health w cache0).new_cache.storage
        = (cache0.invalidate_for_device (observed_device_id w) w.now).storage ∧
      (collect_system_health w cache0).health.storage
        = (cache0.invalidate_for_device (observed_device_id w) w.now).storage.data ∧
      ∀ e ∈ (collect_system_health w cache0).events,
        "storage" ∉ e.metrics_updated) ∧
    (w.fetch_memory = none →
      (collect_system_health w cache0).new_cache.memory
        = (cache0.invalidate_for_device (observed_device_id w) w.now).memory ∧
      (collect_system_health w cache0).health.memory
        = (cache0.invalidate_for_device (observed_device_id w) w.now).memory.data ∧
      ∀ e ∈ (collect_system_health w cache0).events,
        "memory" ∉ e.metrics_updated) ∧
    (w.fetch_cpu = none →
      (collect_system_health w cache0).new_cache.cpu
        = (cache0.invalidate_for_device (observed_device_id w) w.now).cpu ∧
      (collect_system_health w cache0).health.cpu
        = (cache0.invalidate_for_device (observed_device_id w) w.now).cpu.data ∧
      ∀ e ∈ (collect_system_health w cache0).events,
        "cpu" ∉ e.metrics_updated) ∧
    (w.fetch_services = none →
      (collect_system_health w cache0).new_cache.services
        = (cache0.invalidate_for_device (observed_device_id w) w.now).services ∧
      (collect_system_health w cache0).health.services_count
        = (cache0.invalidate_for_device (observed_device_id w) w.now).services.data ∧
      ∀ e ∈ (collect_system_health w cache0).events,
        "services" ∉ e.metrics_updated) ∧
    (w.fetch_app_counts = none →
      (collect_system_health w cache0).new_cache.app_counts
        = (cache0.invalidate_for_device (observed_device_id w) w.now).app_counts ∧
      (collect_system_health w cache0).health.app_counts
        = (cache0.invalidate_for_device (observed_device_id w) w.now).app_counts.data ∧
      ∀ e ∈ (collect_system_health w cache0).events,
        "app_counts" ∉ e.metrics_updated) ∧
    (w.fetch_thermal = none →
      (collect_system_health w cache0).new_cache.thermal
        = (cache0.invalidate_for_device (observed_device_id w) w.now).thermal ∧
      (collect_system_health w cache0).health.thermal
        = (cache0.invalidate_for_device (observed_device_id w) w.now).thermal.data ∧
      ∀ e ∈ (collect_system_health w cache0).events,
        "thermal" ∉ e.metrics_updated) ∧
    (w.fetch_battery = none →
      (collect_system_health w cache0).new_cache.battery
        = (cache0.invalidate_for_device (observed_device_id w) w.now).battery ∧
      (collect_system_health w cache0).health.battery_drainers
        = (cache0.invalidate_for_device (observed_device_id w) w.now).battery.data ∧
      ∀ e ∈ (collect_system_health w cache0).events,
        "battery" ∉ e.metrics_updated) := by
  refine ⟨⟨(collect_system_health w cache0).health, rfl⟩,
    ?_, ?_, ?_, ?_, ?_, ?_, ?_⟩
  all_goals
    intro hnone
    refine ⟨?_, ?_, ?_⟩
    · simp only [collect_system_health]
      rw [hnone, step_metric_none]
    · simp only [collect_system_health]
      rw [hnone, step_metric_none]
      rfl
    · intro e he hmem
      rcases collect_updated_chars w cache0 e he _ hmem with
        ⟨h, hs⟩ | ⟨h, hs⟩ | ⟨h, hs⟩ | ⟨h, hs⟩ | ⟨h, hs⟩ | ⟨h, hs⟩ | ⟨h, hs⟩ <;>
        first
          | (rw [hnone] at hs
             simp at hs)
          | exact absurd h (by decide)

/-- C8, witness: the isolation property for a failing storage fetch on a
same-device pass over `Nat` payloads; the previously cached storage value is
served and `storage` is reported updated by no event. -/
theorem C8_failed_fetch_isolated_witness :
    (collect_system_health c8_world c8_cache_same).new_cache.storage
      = (c8_cache_same.invalidate_for_device (observed_device_id c8_world)
          c8_world.now).storage ∧
    (collect_system_health c8_world c8_cache_same).health.storage
      = (c8_cache_same.invalidate_for_device (observed_device_id c8_world)
          c8_world.now).storage.data ∧
    ∀ e ∈ (collect_system_health c8_world c8_cache_same).events,
      "storage" ∉ e.metrics_updated :=
  (C8_failed_fetch_isolated c8_world c8_cache_same).2.1 rfl

end DebloatAI
